import Mathlib

attribute [local semireducible] Rat.mul Rat.inv Rat.add Rat.sub

/-!
# Verification of the GSR2 Metashape processing scripts

Shallow embedding of the point-cloud filtering and scale-calibration logic of
the repository's Metashape scripts (`image_processor.py` with `filter.py` and
`accuracy.py`, and the legacy `process-images.py`):

* the gradual-selection threshold search `threshold_for_percent`,
* the removal wrapper `remove_by_criteria`,
* the sparse filter pipeline `filter_sparse_cloud`,
* the dense-cloud confidence filter of `filter_dense_cloud`,
* scale-bar calibration `add_scalebars` (CSV variant and legacy fixed-pair
  variant).

The Metashape engine itself is an external collaborator; its primitives
(`selectPoints`, `removePoints`, `setConfidenceFilter`, ...) are modelled
explicitly, each with a doc comment stating where the model comes from.
Python `float` thresholds are embedded as rationals; exceptions as `Except`;
the unbounded `while` loop as fuel-indexed recursion where `none` means the
loop has not finished within the given fuel.
-/

/-- Gradual-selection criteria of `Metashape.TiePoints.Filter` used by the
sparse filters of both scripts (engine-side enumeration). -/
inductive Criterion
  | reconstructionUncertainty
  | projectionAccuracy
  | reprojectionError
  deriving DecidableEq, Repr

/-- A sparse (tie-point) cloud point: validity and selection flags as exposed
by `chunk.tie_points.points`, plus its score under each gradual-selection
criterion.  The criterion score is a pure, engine-computed function of the
point (spec: data model, "Criterion"), so we carry one score per criterion. -/
structure Point where
  valid : Bool
  selected : Bool
  recUnc : ℚ
  projAcc : ℚ
  reprojErr : ℚ
  deriving DecidableEq, Repr

/-- The engine's per-point score for a criterion. -/
def criterionScore (c : Criterion) (p : Point) : ℚ :=
  match c with
  | .reconstructionUncertainty => p.recUnc
  | .projectionAccuracy => p.projAcc
  | .reprojectionError => p.reprojErr

/-- Python exceptions that can surface from the embedded code, plus the
spec's `EmptyPointSetError` (which the embedded source never raises; it is
listed so that statements can distinguish it from a division fault). -/
inductive PyError
  | zeroDivision
  | attributeError
  | emptyPointSet
  deriving DecidableEq, Repr

/-- `ImageProcessor.count_sparse_points` (image_processor.py:243-257): counts
points of the sparse cloud with `point.valid is True and
point.selected is filtered`.  The Python default is `filtered=True`. -/
def count_sparse_points (pts : List Point) (filtered : Bool) : Nat :=
  pts.countP fun p => p.valid == true && p.selected == filtered

/-- Number of valid points of the cloud (the spec's "total count of valid
points"). -/
def countValid (pts : List Point) : Nat :=
  pts.countP fun p => p.valid

/-- Number of valid points whose score under criterion `c` exceeds the
threshold `t` — the points a criterion filter at `t` marks. -/
def marked (c : Criterion) (t : ℚ) (pts : List Point) : Nat :=
  pts.countP fun p => p.valid && decide (t < criterionScore c p)

/-- Modelled from the spec: the engine primitive
`Metashape.TiePoints.Filter.selectPoints(threshold)` (not part of src/; spec
section 2 "CriterionFilter: scores all points by one quality criterion and
marks points exceeding a threshold").  Valid points get their selection flag
set to whether their score exceeds the threshold; removed (invalid) points
are untouched. -/
def selectPoints (c : Criterion) (t : ℚ) (pts : List Point) : List Point :=
  pts.map fun p =>
    if p.valid then { p with selected := decide (t < criterionScore c p) } else p

/-- Modelled from the spec: the engine primitive
`Metashape.TiePoints.Filter.removePoints(threshold)` (not part of src/; spec
section 4.2: mark the points exceeding the threshold, remove the marked
points — "removed points are permanently excluded; remaining points'
selection state is reset to unselected"). -/
def removePointsF (c : Criterion) (t : ℚ) (pts : List Point) : List Point :=
  pts.map fun p =>
    if p.valid && decide (t < criterionScore c p) then
      { p with valid := false, selected := false }
    else
      { p with selected := false }

/-- The `while percent_selected > max_percent` loop of
`ImageProcessor.threshold_for_percent` (image_processor.py:285-292), indexed
by fuel.  `sparse` is the denominator counted once before the loop; the
threaded state is the point cloud after the engine's last `selectPoints`
call together with the current threshold. -/
def thresholdLoop (c : Criterion) (sparse : Nat) (step maxP : ℚ) :
    Nat → List Point → ℚ → Option (ℚ × List Point)
  | 0, _, _ => none
  | fuel + 1, pts, threshold =>
    if maxP < (count_sparse_points pts true : ℚ) / (sparse : ℚ) then
      thresholdLoop c sparse step maxP fuel
        (selectPoints c (threshold + step) pts) (threshold + step)
    else
      some (threshold, pts)

/-- `ImageProcessor.threshold_for_percent` (image_processor.py:259-292):
counts `sparse_points = count_sparse_points(False)`, applies the filter at
the initial threshold, then increases the threshold by `step_size` while the
selected fraction exceeds `max_percent`.  The division
`selected_points / sparse_points` raises `ZeroDivisionError` when the
denominator is zero.  Returns the final threshold together with the engine
state left by the last `selectPoints` call; `some` of `none` means the loop
ran out of fuel (did not terminate). -/
def threshold_for_percent (c : Criterion) (fuel : Nat) (pts : List Point)
    (threshold step maxP : ℚ) : Except PyError (Option (ℚ × List Point)) :=
  if count_sparse_points pts false = 0 then
    Except.error PyError.zeroDivision
  else
    Except.ok (thresholdLoop c (count_sparse_points pts false) step maxP fuel
      (selectPoints c threshold pts) threshold)

/-- `ImageProcessor.remove_by_criteria` (image_processor.py:294-318): inits a
criterion filter, runs `threshold_for_percent` when `max_removed > 0`
(Python defaults: `step_size = 0`, `max_removed = 0`), then removes the
points above the (possibly adjusted) threshold. -/
def remove_by_criteria (c : Criterion) (fuel : Nat) (pts : List Point)
    (threshold step max_removed : ℚ) : Except PyError (Option (List Point)) :=
  if 0 < max_removed then
    match threshold_for_percent c fuel pts threshold step max_removed with
    | Except.error e => Except.error e
    | Except.ok none => Except.ok none
    | Except.ok (some (t, pts')) => Except.ok (some (removePointsF c t pts'))
  else
    Except.ok (some (removePointsF c threshold pts))

/-- Constants of `class Filter` (filter.py): `RECONSTRUCTION_UNCERTAINTY`. -/
def RECONSTRUCTION_UNCERTAINTY : ℚ := 10

/-- filter.py: `REPROJECTION_ERROR = 0.3`. -/
def REPROJECTION_ERROR : ℚ := 3 / 10

/-- filter.py: `PROJECTION_ACCURACY = 5.0`. -/
def PROJECTION_ACCURACY : ℚ := 5

/-- filter.py: `DEPTH_MAP_MINIMUM = 1` (a count). -/
def DEPTH_MAP_MINIMUM : Nat := 1

/-- filter.py: `DENSE_CLOUD_POINT_SPACING = 0.00025`. -/
def DENSE_CLOUD_POINT_SPACING : ℚ := 1 / 4000

/-- image_processor.py: `ImageProcessor.FIFTY_PERCENT = 0.5`. -/
def FIFTY_PERCENT : ℚ := 1 / 2

/-- Attribute lookup on `class Filter` of filter.py: exactly the five class
attributes the file defines resolve; any other name (in particular
`RECONSTRUCTION_UNCERTAINTY_STEP`, referenced by
`ImageProcessor.filter_sparse_cloud`) raises `AttributeError` in Python,
here `none`. -/
def filterAttr : String → Option ℚ
  | "RECONSTRUCTION_UNCERTAINTY" => some RECONSTRUCTION_UNCERTAINTY
  | "REPROJECTION_ERROR" => some REPROJECTION_ERROR
  | "PROJECTION_ACCURACY" => some PROJECTION_ACCURACY
  | "DEPTH_MAP_MINIMUM" => some ((DEPTH_MAP_MINIMUM : ℚ))
  | "DENSE_CLOUD_POINT_SPACING" => some DENSE_CLOUD_POINT_SPACING
  | _ => none

/-- Observable pipeline events of the sparse filter pipeline. -/
inductive Event
  | removal (c : Criterion) (threshold step maxRemoved : ℚ)
  | optimizeCameras
  | save
  deriving DecidableEq, Repr

/-- `ImageProcessor.filter_sparse_cloud` (image_processor.py:320-346).
Python evaluates the arguments of the first `remove_by_criteria` call before
entering it; evaluating `Filter.RECONSTRUCTION_UNCERTAINTY_STEP` is an
attribute lookup on `class Filter` of filter.py, which defines no such
attribute, so the lookup is embedded through `filterAttr`.  If it resolved,
the three removal stages would run in order ReconstructionUncertainty
(capped at `FIFTY_PERCENT`), ProjectionAccuracy (uncapped), ReprojectionError
(uncapped), each followed by `optimizeCameras`, then `save`; the returned
event list records that order. -/
def filter_sparse_cloud (fuel : Nat) (pts : List Point) :
    Except PyError (Option (List Point × List Event)) :=
  match filterAttr "RECONSTRUCTION_UNCERTAINTY_STEP" with
  | none => Except.error PyError.attributeError
  | some step =>
    match remove_by_criteria Criterion.reconstructionUncertainty fuel pts
        RECONSTRUCTION_UNCERTAINTY step FIFTY_PERCENT with
    | Except.error e => Except.error e
    | Except.ok none => Except.ok none
    | Except.ok (some pts1) =>
      match remove_by_criteria Criterion.projectionAccuracy fuel pts1
          PROJECTION_ACCURACY 0 0 with
      | Except.error e => Except.error e
      | Except.ok none => Except.ok none
      | Except.ok (some pts2) =>
        match remove_by_criteria Criterion.reprojectionError fuel pts2
            REPROJECTION_ERROR 0 0 with
        | Except.error e => Except.error e
        | Except.ok none => Except.ok none
        | Except.ok (some pts3) =>
          Except.ok (some (pts3,
            [Event.removal Criterion.reconstructionUncertainty
                RECONSTRUCTION_UNCERTAINTY step FIFTY_PERCENT,
             Event.optimizeCameras,
             Event.removal Criterion.projectionAccuracy PROJECTION_ACCURACY 0 0,
             Event.optimizeCameras,
             Event.removal Criterion.reprojectionError REPROJECTION_ERROR 0 0,
             Event.optimizeCameras,
             Event.save]))

/-- accuracy.py: `Accuracy.SCALEBAR = 0.01` (meters), the profile used by
image_processor.py. -/
def SCALEBAR : ℚ := 1 / 100

/-- process-images.py, its own `class Accuracy`: `SCALEBAR = 0.03`. -/
def PROCESS_IMAGES_SCALEBAR : ℚ := 3 / 100

/-- `ImageProcessor.MARKER_STRING = Template('target ${id}')`: renders the
engine-visible label for a marker id. -/
def MARKER_STRING (id : String) : String := "target " ++ id

/-- One row of the scale-record CSV consumed by
`ImageProcessor.add_scalebars` (image_processor.py:181-220):
`marker_ID_from, marker_ID_to, marker_distance`. -/
structure ScaleRecord where
  id1 : String
  id2 : String
  distance : ℚ
  deriving DecidableEq, Repr

/-- A registered scale bar: the two resolved marker labels, the reference
accuracy and the reference distance assigned by the calibrator. -/
structure ScaleBar where
  marker1 : String
  marker2 : String
  accuracy : ℚ
  distance : ℚ
  deriving DecidableEq, Repr

/-- Observable events of the scale calibrators: a registered scale bar, the
"Marker pair ... NOT found in images" warning, `chunk.updateTransform()` and
`project.save()`. -/
inductive ScaleEvent
  | addScalebar (label1 label2 : String) (accuracy distance : ℚ)
  | warnMissing (label1 label2 : String)
  | updateTransform
  | save
  deriving DecidableEq, Repr

/-- The `for marker_pair in marker_list` loop of
`ImageProcessor.add_scalebars` (image_processor.py:203-217): for each record
resolve both `target ${id}` labels against the detected-marker labels; when
both resolve register a scale bar with `Accuracy.SCALEBAR` and the record's
distance, otherwise print the warning naming the pair. -/
def add_scalebars_events : List ScaleRecord → List String → List ScaleEvent
  | [], _ => []
  | r :: rs, labels =>
    (if MARKER_STRING r.id1 ∈ labels ∧ MARKER_STRING r.id2 ∈ labels then
      [ScaleEvent.addScalebar (MARKER_STRING r.id1) (MARKER_STRING r.id2)
        SCALEBAR r.distance]
    else
      [ScaleEvent.warnMissing (MARKER_STRING r.id1) (MARKER_STRING r.id2)])
      ++ add_scalebars_events rs labels

/-- `ImageProcessor.add_scalebars` of image_processor.py (lines 181-220):
process every record, then `chunk.updateTransform()` and `project.save()`. -/
def add_scalebars (records : List ScaleRecord) (labels : List String) :
    List ScaleEvent :=
  add_scalebars_events records labels ++ [ScaleEvent.updateTransform, ScaleEvent.save]

/-- The scale bars a calibrator run registered, read off its event trace. -/
def registeredScalebars (trace : List ScaleEvent) : List ScaleBar :=
  trace.filterMap fun e =>
    match e with
    | ScaleEvent.addScalebar a b acc d => some ⟨a, b, acc, d⟩
    | _ => none

/-- The missing-pair diagnostics a calibrator run emitted. -/
def missingDiagnostics (trace : List ScaleEvent) : List (String × String) :=
  trace.filterMap fun e =>
    match e with
    | ScaleEvent.warnMissing a b => some (a, b)
    | _ => none

/-- The `for marker_start in range(1, 6, 2)` loop of the legacy
`ImageProcessor.add_scalebars` (process-images.py:212-232): fixed pairs
(1,2), (3,4), (5,6) with one shared distance; a pair with an undetected
endpoint is skipped with no `else` branch — no warning, and the method ends
without `updateTransform` or `save`. -/
def add_scalebars_legacy_go (labels : List String) (distance : ℚ) :
    List Nat → List ScaleEvent
  | [] => []
  | i :: is =>
    (if MARKER_STRING (toString i) ∈ labels ∧
        MARKER_STRING (toString (i + 1)) ∈ labels then
      [ScaleEvent.addScalebar (MARKER_STRING (toString i))
        (MARKER_STRING (toString (i + 1))) PROCESS_IMAGES_SCALEBAR distance]
    else
      [])
      ++ add_scalebars_legacy_go labels distance is

/-- Legacy `ImageProcessor.add_scalebars` (process-images.py:212-232); the
iteration range `range(1, 6, 2)` is `[1, 3, 5]`. -/
def add_scalebars_legacy (labels : List String) (distance : ℚ) :
    List ScaleEvent :=
  add_scalebars_legacy_go labels distance [1, 3, 5]

/-- A dense-cloud point: its confidence (the number of depth maps it was
observed in) and its point class, plus whether it has been removed. -/
structure DensePoint where
  confidence : Nat
  cls : Nat
  removed : Bool
  deriving DecidableEq, Repr

/-- The dense point cloud together with its active confidence filter, the
state `setConfidenceFilter` / `resetFilters` act on. -/
structure PointCloudState where
  points : List DensePoint
  confFilter : Option (Nat × Nat)
  deriving DecidableEq, Repr

/-- Engine primitive `PointCloud.setConfidenceFilter(min, max)` (not part of
src/): restricts subsequent point operations to the points whose confidence
lies within the inclusive range `[min, max]`.  This is the Metashape API
semantics the source relies on: `filter_dense_cloud` passes
`(0, Filter.DEPTH_MAP_MINIMUM)` and its own comment says the step removes
the points "with one depth map" (confidence 1, inside the range), then
`resetFilters` clears the range. -/
def setConfidenceFilter (lo hi : Nat) (s : PointCloudState) : PointCloudState :=
  { s with confFilter := some (lo, hi) }

/-- Whether a point is visible under the active confidence filter. -/
def confVisible (f : Option (Nat × Nat)) (p : DensePoint) : Bool :=
  !p.removed &&
    match f with
    | none => true
    | some (lo, hi) => decide (lo ≤ p.confidence) && decide (p.confidence ≤ hi)

/-- Engine primitive `PointCloud.removePoints(classes)` (not part of src/):
removes the points of the listed point classes that are visible under the
active filter. -/
def removePointsDense (classes : List Nat) (s : PointCloudState) :
    PointCloudState :=
  { s with
    points := s.points.map fun p =>
      if confVisible s.confFilter p && decide (p.cls ∈ classes) then
        { p with removed := true }
      else
        p }

/-- Engine primitive `PointCloud.resetFilters()` (not part of src/): clears
the active confidence filter so it does not persist on the point set. -/
def resetFilters (s : PointCloudState) : PointCloudState :=
  { s with confFilter := none }

/-- image_processor.py: `ALL_VISIBLE_POINTS = list(range(128))`, every point
class. -/
def ALL_VISIBLE_POINTS : List Nat := List.range 128

/-- The confidence-filter step of `ImageProcessor.filter_dense_cloud`
(image_processor.py:370-374, identically process-images.py:342-346):
`setConfidenceFilter(0, Filter.DEPTH_MAP_MINIMUM)`, then
`removePoints(ALL_VISIBLE_POINTS)`, then `resetFilters()`.  (The subsequent
spatial decimation task is a separate engine call, out of this model.) -/
def filter_dense_cloud_confidence (s : PointCloudState) : PointCloudState :=
  resetFilters
    (removePointsDense ALL_VISIBLE_POINTS
      (setConfidenceFilter 0 DEPTH_MAP_MINIMUM s))

/-! ## Helper lemmas about the filter primitives and the threshold loop -/

/-- A criterion score does not depend on the selection flag. -/
lemma criterionScore_set_selected (c : Criterion) (p : Point) (x : Bool) :
    criterionScore c { p with selected := x } = criterionScore c p := by
  cases c <;> rfl

/-- After `selectPoints`, the points counted as selected-and-valid are
exactly the valid points whose score exceeds the threshold. -/
lemma count_sparse_points_selectPoints (c : Criterion) (t : ℚ) (pts : List Point) :
    count_sparse_points (selectPoints c t pts) true = marked c t pts := by
  unfold count_sparse_points marked selectPoints
  rw [List.countP_map]
  apply le_antisymm
  · apply List.countP_mono_left
    intro p _ h
    cases hv : p.valid <;> simp_all [Function.comp]
  · apply List.countP_mono_left
    intro p _ h
    cases hv : p.valid <;> simp_all [Function.comp]

/-- Re-running the criterion filter overrides the previous selection. -/
lemma selectPoints_selectPoints (c : Criterion) (t t' : ℚ) (pts : List Point) :
    selectPoints c t' (selectPoints c t pts) = selectPoints c t' pts := by
  cases c <;>
    (simp only [selectPoints, List.map_map]
     apply List.map_congr_left
     intro p _
     cases hp : p.valid <;> simp [Function.comp, hp, criterionScore])

/-- The valid-and-unselected count never exceeds the valid count. -/
lemma count_sparse_points_false_le (pts : List Point) :
    count_sparse_points pts false ≤ countValid pts := by
  apply List.countP_mono_left
  intro p _ hp
  simp only [Bool.and_eq_true, beq_iff_eq] at hp
  exact hp.1

/-- Raising the threshold cannot mark more points (the marking of a
criterion filter is antitone in the threshold). -/
lemma marked_antitone (c : Criterion) (pts : List Point) {t t' : ℚ} (h : t ≤ t') :
    marked c t' pts ≤ marked c t pts := by
  apply List.countP_mono_left
  intro p _ hp
  simp only [Bool.and_eq_true, decide_eq_true_eq] at *
  exact ⟨hp.1, lt_of_le_of_lt h hp.2⟩

/-- No valid point scores above a bound on all scores, so nothing is
marked there. -/
lemma marked_eq_zero (c : Criterion) (t : ℚ) (pts : List Point)
    (h : ∀ p ∈ pts, criterionScore c p ≤ t) : marked c t pts = 0 := by
  apply List.countP_eq_zero.mpr
  intro p hp
  simp only [Bool.and_eq_true, decide_eq_true_eq, not_and]
  intro _
  exact not_lt.mpr (h p hp)

/-- If the loop returns, the returned state is the filter applied at the
returned threshold, and the selected fraction there is not above the cap. -/
lemma thresholdLoop_some_spec (c : Criterion) (pts0 : List Point) (sparse : Nat)
    (step maxP : ℚ) :
    ∀ (fuel : Nat) (t tf : ℚ) (ptsf : List Point),
      thresholdLoop c sparse step maxP fuel (selectPoints c t pts0) t =
          some (tf, ptsf) →
      ptsf = selectPoints c tf pts0 ∧
        ¬(maxP < (marked c tf pts0 : ℚ) / (sparse : ℚ)) := by
  intro fuel
  induction fuel with
  | zero => intro t tf ptsf h; simp [thresholdLoop] at h
  | succ n ih =>
    intro t tf ptsf h
    simp only [thresholdLoop, count_sparse_points_selectPoints] at h
    by_cases hc : maxP < (marked c t pts0 : ℚ) / (sparse : ℚ)
    · rw [if_pos hc, selectPoints_selectPoints] at h
      exact ih (t + step) tf ptsf h
    · rw [if_neg hc] at h
      simp only [Option.some.injEq, Prod.mk.injEq] at h
      obtain ⟨h1, h2⟩ := h
      subst h1
      exact ⟨h2.symm, hc⟩

/-- With a nonnegative step, a returned threshold is at least the current
one. -/
lemma thresholdLoop_some_le (c : Criterion) (sparse : Nat) (step maxP : ℚ)
    (hstep : 0 ≤ step) :
    ∀ (fuel : Nat) (pts : List Point) (t tf : ℚ) (ptsf : List Point),
      thresholdLoop c sparse step maxP fuel pts t = some (tf, ptsf) → t ≤ tf := by
  intro fuel
  induction fuel with
  | zero => intro pts t tf ptsf h; simp [thresholdLoop] at h
  | succ n ih =>
    intro pts t tf ptsf h
    simp only [thresholdLoop] at h
    split at h
    · exact le_trans (by linarith) (ih _ _ _ _ h)
    · simp only [Option.some.injEq, Prod.mk.injEq] at h
      exact le_of_eq h.1

/-- With a nonpositive step the loop, once entered, never exits: lowering
(or keeping) the threshold cannot lower a fraction that is already above
the cap. -/
lemma thresholdLoop_none_of_nonpos (c : Criterion) (pts0 : List Point)
    (sparse : Nat) (step maxP : ℚ) (hstep : step ≤ 0) (hsp : 0 < sparse) :
    ∀ (fuel : Nat) (t : ℚ),
      maxP < (marked c t pts0 : ℚ) / (sparse : ℚ) →
      thresholdLoop c sparse step maxP fuel (selectPoints c t pts0) t = none := by
  intro fuel
  induction fuel with
  | zero => intro t _; rfl
  | succ n ih =>
    intro t h
    have hcast : (marked c t pts0 : ℚ) ≤ (marked c (t + step) pts0 : ℚ) := by
      exact_mod_cast marked_antitone c pts0 (by linarith)
    have hmono : (marked c t pts0 : ℚ) / (sparse : ℚ) ≤
        (marked c (t + step) pts0 : ℚ) / (sparse : ℚ) := by
      gcongr
    simp only [thresholdLoop, count_sparse_points_selectPoints]
    rw [if_pos h, selectPoints_selectPoints]
    exact ih (t + step) (lt_of_lt_of_le h hmono)

/-- A successful `threshold_for_percent` leaves the filter applied at the
returned threshold and the selected fraction (over the pre-call
denominator) at most the cap. -/
lemma threshold_for_percent_some (c : Criterion) (fuel : Nat) (pts : List Point)
    (t0 step maxP tf : ℚ) (ptsf : List Point)
    (h : threshold_for_percent c fuel pts t0 step maxP =
      Except.ok (some (tf, ptsf))) :
    ptsf = selectPoints c tf pts ∧
      ¬(maxP < (marked c tf pts : ℚ) / (count_sparse_points pts false : ℚ)) := by
  by_cases hz : count_sparse_points pts false = 0
  · simp [threshold_for_percent, hz] at h
  · rw [threshold_for_percent, if_neg hz] at h
    simp only [Except.ok.injEq] at h
    exact thresholdLoop_some_spec c pts _ step maxP fuel t0 tf ptsf h

/-- A fraction over the pre-call denominator bounds the fraction over all
valid points, since unselected-valid points are a subset of valid points. -/
lemma frac_le_countValid (pts : List Point) (m : Nat) (maxP : ℚ)
    (hz : count_sparse_points pts false ≠ 0)
    (h : (m : ℚ) / (count_sparse_points pts false : ℚ) ≤ maxP) :
    (m : ℚ) / (countValid pts : ℚ) ≤ maxP := by
  have h1 : (count_sparse_points pts false : ℚ) ≤ (countValid pts : ℚ) := by
    exact_mod_cast count_sparse_points_false_le pts
  have h2 : (0 : ℚ) < (count_sparse_points pts false : ℚ) := by
    exact_mod_cast Nat.pos_of_ne_zero hz
  calc (m : ℚ) / (countValid pts : ℚ)
      ≤ (m : ℚ) / (count_sparse_points pts false : ℚ) := by gcongr
    _ ≤ maxP := h

/-- Every element of a list is bounded by its `foldr max` closure. -/
lemma le_foldr_max (b : ℚ) : ∀ (l : List ℚ), ∀ x ∈ l, x ≤ l.foldr max b := by
  intro l
  induction l with
  | nil => simp
  | cons a l ih =>
    intro x hx
    rcases List.mem_cons.mp hx with h | h
    · subst h; exact le_max_left _ _
    · exact le_trans (ih x h) (le_max_right _ _)

/-- With a positive step, once the threshold has passed a bound on all
scores the loop exits, so `n + 1` units of fuel suffice whenever
`t + n * step` reaches the bound. -/
lemma thresholdLoop_term (c : Criterion) (pts : List Point) (sparse : Nat)
    (step maxP M : ℚ) (hm : 0 ≤ maxP)
    (hM : ∀ p ∈ pts, criterionScore c p ≤ M) :
    ∀ (n : Nat) (t : ℚ), M ≤ t + n * step →
      ∃ tf ptsf, thresholdLoop c sparse step maxP (n + 1)
        (selectPoints c t pts) t = some (tf, ptsf) := by
  intro n
  induction n with
  | zero =>
    intro t ht
    have h0 : marked c t pts = 0 :=
      marked_eq_zero c t pts (fun p hp => le_trans (hM p hp) (by simpa using ht))
    have hcond : ¬(maxP < (count_sparse_points (selectPoints c t pts) true : ℚ) /
        (sparse : ℚ)) := by
      rw [count_sparse_points_selectPoints, h0]
      simp [not_lt, hm]
    refine ⟨t, selectPoints c t pts, ?_⟩
    simp only [thresholdLoop]
    rw [if_neg hcond]
  | succ n ih =>
    intro t ht
    by_cases hc : maxP < (count_sparse_points (selectPoints c t pts) true : ℚ) /
        (sparse : ℚ)
    · have hcast : ((n + 1 : ℕ) : ℚ) * step = (n : ℚ) * step + step := by
        push_cast
        ring
      have ht' : M ≤ (t + step) + n * step := by
        rw [hcast] at ht
        linarith
      obtain ⟨tf, ptsf, hres⟩ := ih (t + step) ht'
      refine ⟨tf, ptsf, ?_⟩
      simp only [thresholdLoop]
      rw [if_pos hc, selectPoints_selectPoints]
      exact hres
    · refine ⟨t, selectPoints c t pts, ?_⟩
      simp only [thresholdLoop]
      rw [if_neg hc]

/-! ## Claims about the threshold search -/

/-- C1: for every point set with at least one valid point and every
`max_fraction ∈ (0, 1]`, when `threshold_for_percent` terminates with a
result it returns a threshold `tf ≥ initial_threshold`, the point set is
left with the criterion filter applied at `tf`, and the fraction of the
valid points marked at `tf` is at most `max_fraction`. -/
theorem threshold_for_percent_sound (c : Criterion) (fuel : Nat)
    (pts : List Point) (t0 step maxP tf : ℚ) (ptsf : List Point)
    (hmax0 : 0 < maxP) (hmax1 : maxP ≤ 1) (hval : 0 < countValid pts)
    (hres : threshold_for_percent c fuel pts t0 step maxP =
      Except.ok (some (tf, ptsf))) :
    t0 ≤ tf ∧ ptsf = selectPoints c tf pts ∧
      (count_sparse_points (selectPoints c tf pts) true : ℚ) /
        (countValid pts : ℚ) ≤ maxP := by
  have hz : count_sparse_points pts false ≠ 0 := by
    intro h0
    simp [threshold_for_percent, h0] at hres
  have hloop : thresholdLoop c (count_sparse_points pts false) step maxP fuel
      (selectPoints c t0 pts) t0 = some (tf, ptsf) := by
    rw [threshold_for_percent, if_neg hz] at hres
    simpa using hres
  obtain ⟨hstate, hfrac⟩ :=
    thresholdLoop_some_spec c pts _ step maxP fuel t0 tf ptsf hloop
  have hcv : (count_sparse_points (selectPoints c tf pts) true : ℚ) /
      (countValid pts : ℚ) ≤ maxP := by
    rw [count_sparse_points_selectPoints]
    exact frac_le_countValid pts _ maxP hz (not_lt.mp hfrac)
  refine ⟨?_, hstate, hcv⟩
  rcases le_or_lt 0 step with hstep | hstep
  · exact thresholdLoop_some_le c _ step maxP hstep fuel _ t0 tf ptsf hloop
  · by_cases hc : maxP < (marked c t0 pts : ℚ) /
        (count_sparse_points pts false : ℚ)
    · have hnone := thresholdLoop_none_of_nonpos c pts _ step maxP
        (le_of_lt hstep) (Nat.pos_of_ne_zero hz) fuel t0 hc
      rw [hnone] at hloop
      exact absurd hloop (by simp)
    · cases fuel with
      | zero => simp [thresholdLoop] at hloop
      | succ n =>
        simp only [thresholdLoop, count_sparse_points_selectPoints] at hloop
        rw [if_neg hc] at hloop
        simp only [Option.some.injEq, Prod.mk.injEq] at hloop
        exact le_of_eq hloop.1

/-- Witness for C1: a two-point cloud with scores 5 and 1, initial
threshold 0, step 3 and cap 1/2: the search stops at threshold 3 where one
of the two valid points is marked. -/
theorem threshold_for_percent_sound_witness :
    (0 : ℚ) < 1 / 2 ∧ (1 / 2 : ℚ) ≤ 1 ∧
    0 < countValid
      [⟨true, false, 5, 5, 5⟩, ⟨true, false, 1, 1, 1⟩] ∧
    threshold_for_percent Criterion.reconstructionUncertainty 3
        [⟨true, false, 5, 5, 5⟩, ⟨true, false, 1, 1, 1⟩] 0 3 (1 / 2) =
      Except.ok (some (3, [⟨true, true, 5, 5, 5⟩, ⟨true, false, 1, 1, 1⟩])) ∧
    ((0 : ℚ) ≤ 3 ∧
      [⟨true, true, 5, 5, 5⟩, ⟨true, false, 1, 1, 1⟩] =
        selectPoints Criterion.reconstructionUncertainty 3
          [⟨true, false, 5, 5, 5⟩, ⟨true, false, 1, 1, 1⟩] ∧
      (count_sparse_points
          (selectPoints Criterion.reconstructionUncertainty 3
            [⟨true, false, 5, 5, 5⟩, ⟨true, false, 1, 1, 1⟩]) true : ℚ) /
        (countValid
          [⟨true, false, 5, 5, 5⟩, ⟨true, false, 1, 1, 1⟩] : ℚ) ≤ 1 / 2) :=
  ⟨by norm_num, by norm_num, by decide, by rfl,
    threshold_for_percent_sound Criterion.reconstructionUncertainty 3
      [⟨true, false, 5, 5, 5⟩, ⟨true, false, 1, 1, 1⟩] 0 3 (1 / 2) 3
      [⟨true, true, 5, 5, 5⟩, ⟨true, false, 1, 1, 1⟩]
      (by norm_num) (by norm_num) (by decide) (by rfl)⟩

/-- C2 counterexample: invoked on a point set with zero valid points, the
code fails with the division fault `ZeroDivisionError` (from
`selected_points / sparse_points`), which is not the spec's
`EmptyPointSetError` — no such error exists anywhere in the source. -/
theorem threshold_for_percent_division_fault :
    threshold_for_percent Criterion.reconstructionUncertainty 3
        [⟨false, false, 0, 0, 0⟩] 0 1 (1 / 2) =
      Except.error PyError.zeroDivision ∧
    PyError.zeroDivision ≠ PyError.emptyPointSet :=
  ⟨rfl, by decide⟩

/-- C2 (amended): for every invocation on a point set with zero valid
points, `threshold_for_percent` fails with the `ZeroDivisionError` division
fault (the code has no `EmptyPointSetError` guard). -/
theorem threshold_for_percent_no_valid_points (c : Criterion) (fuel : Nat)
    (pts : List Point) (t0 step maxP : ℚ) (h : countValid pts = 0) :
    threshold_for_percent c fuel pts t0 step maxP =
      Except.error PyError.zeroDivision := by
  have hz : count_sparse_points pts false = 0 :=
    Nat.le_zero.mp (h ▸ count_sparse_points_false_le pts)
  simp [threshold_for_percent, hz]

/-- Witness for the amended C2 at a one-point cloud whose point is
invalid. -/
theorem threshold_for_percent_no_valid_points_witness :
    countValid [⟨false, false, 1, 1, 1⟩] = 0 ∧
    threshold_for_percent Criterion.projectionAccuracy 2
        [⟨false, false, 1, 1, 1⟩] 5 1 1 =
      Except.error PyError.zeroDivision :=
  ⟨by decide,
    threshold_for_percent_no_valid_points Criterion.projectionAccuracy 2
      [⟨false, false, 1, 1, 1⟩] 5 1 1 (by decide)⟩

/-- C7 counterexample: the marked fraction of the embedded criterion filter
is antitone in the threshold (the spec's monotonicity precondition holds),
yet with `step_size = 0` the search never terminates on a cloud whose
initial fraction exceeds the cap: for every fuel the loop is still
running. -/
theorem threshold_search_monotone_nontermination :
    (∀ t t' : ℚ, t ≤ t' →
      marked Criterion.reconstructionUncertainty t'
          [⟨true, false, 5, 5, 5⟩, ⟨true, false, 5, 5, 5⟩] ≤
        marked Criterion.reconstructionUncertainty t
          [⟨true, false, 5, 5, 5⟩, ⟨true, false, 5, 5, 5⟩]) ∧
    ∀ fuel : Nat,
      threshold_for_percent Criterion.reconstructionUncertainty fuel
          [⟨true, false, 5, 5, 5⟩, ⟨true, false, 5, 5, 5⟩] 0 0 (1 / 2) =
        Except.ok none := by
  constructor
  · intro t t' h
    exact marked_antitone Criterion.reconstructionUncertainty _ h
  · intro fuel
    have hd := thresholdLoop_none_of_nonpos Criterion.reconstructionUncertainty
      [⟨true, false, 5, 5, 5⟩, ⟨true, false, 5, 5, 5⟩] 2 0 (1 / 2)
      (le_refl 0) (by norm_num) fuel 0 (by decide)
    rw [threshold_for_percent, if_neg (by decide)]
    exact congrArg Except.ok hd

/-- C7 (amended): monotonicity of the marking alone does not make the
search total; what does is a positive `step_size` (with a nonnegative cap):
on every finite point set with a nonzero denominator the loop terminates
for some fuel. -/
theorem threshold_search_terminates (c : Criterion) (pts : List Point)
    (t0 step maxP : ℚ) (hstep : 0 < step) (hm : 0 ≤ maxP)
    (hz : count_sparse_points pts false ≠ 0) :
    ∃ fuel tf ptsf,
      threshold_for_percent c fuel pts t0 step maxP =
        Except.ok (some (tf, ptsf)) := by
  have hM : ∀ p ∈ pts, criterionScore c p ≤
      (pts.map (criterionScore c)).foldr max t0 := by
    intro p hp
    exact le_foldr_max t0 _ _ (List.mem_map_of_mem _ hp)
  obtain ⟨n, hn⟩ := exists_nat_ge
    (((pts.map (criterionScore c)).foldr max t0 - t0) / step)
  have hM' : (pts.map (criterionScore c)).foldr max t0 ≤ t0 + n * step := by
    rw [div_le_iff₀ hstep] at hn
    linarith
  obtain ⟨tf, ptsf, hres⟩ := thresholdLoop_term c pts
    (count_sparse_points pts false) step maxP _ hm hM n t0 hM'
  refine ⟨n + 1, tf, ptsf, ?_⟩
  rw [threshold_for_percent, if_neg hz]
  exact congrArg Except.ok hres

/-- Witness for the amended C7: with step 1 and cap 1/2 on a one-point
cloud the search terminates. -/
theorem threshold_search_terminates_witness :
    (0 : ℚ) < 1 ∧ (0 : ℚ) ≤ 1 / 2 ∧
    count_sparse_points [⟨true, false, 0, 0, 0⟩] false ≠ 0 ∧
    ∃ fuel tf ptsf,
      threshold_for_percent Criterion.reprojectionError fuel
          [⟨true, false, 0, 0, 0⟩] 0 1 (1 / 2) =
        Except.ok (some (tf, ptsf)) :=
  ⟨by norm_num, by norm_num, by decide,
    threshold_search_terminates Criterion.reprojectionError
      [⟨true, false, 0, 0, 0⟩] 0 1 (1 / 2) (by norm_num) (by norm_num)
      (by decide)⟩

/-- C10: `remove_by_criteria` defaults `step_size` to 0; whenever it is
called with `max_removed > 0`, the step left at the default 0 and an
initial marked fraction above the cap, the threshold search adds 0 to the
threshold on every iteration and no iteration bound exists, so for every
amount of fuel the run is still looping and never produces a result. -/
theorem remove_by_criteria_default_step_diverges (c : Criterion)
    (pts : List Point) (t0 maxR : ℚ) (hm : 0 < maxR)
    (hz : count_sparse_points pts false ≠ 0)
    (hfrac : maxR < (count_sparse_points (selectPoints c t0 pts) true : ℚ) /
      (count_sparse_points pts false : ℚ)) :
    ∀ fuel : Nat, remove_by_criteria c fuel pts t0 0 maxR = Except.ok none := by
  intro fuel
  have hd := thresholdLoop_none_of_nonpos c pts (count_sparse_points pts false)
    0 maxR (le_refl 0) (Nat.pos_of_ne_zero hz) fuel t0
    (by rwa [count_sparse_points_selectPoints] at hfrac)
  rw [remove_by_criteria, if_pos hm, threshold_for_percent, if_neg hz, hd]

/-- Witness for C10: one valid point with score 5, threshold 0, cap 1/2:
the whole cloud is marked at every threshold, the step stays 0, and no fuel
makes the call return. -/
theorem remove_by_criteria_default_step_diverges_witness :
    (0 : ℚ) < 1 / 2 ∧
    count_sparse_points [⟨true, false, 5, 5, 5⟩] false ≠ 0 ∧
    (1 / 2 : ℚ) <
      (count_sparse_points (selectPoints Criterion.reconstructionUncertainty 0
          [⟨true, false, 5, 5, 5⟩]) true : ℚ) /
        (count_sparse_points [⟨true, false, 5, 5, 5⟩] false : ℚ) ∧
    ∀ fuel : Nat,
      remove_by_criteria Criterion.reconstructionUncertainty fuel
          [⟨true, false, 5, 5, 5⟩] 0 0 (1 / 2) = Except.ok none :=
  ⟨by norm_num, by decide, by decide,
    remove_by_criteria_default_step_diverges Criterion.reconstructionUncertainty
      [⟨true, false, 5, 5, 5⟩] 0 (1 / 2) (by norm_num) (by decide) (by decide)⟩

/-! ## Claims about the removal stage and the sparse pipeline -/

/-- After the engine's `removePoints`, every surviving point is
unselected. -/
lemma removePointsF_selected (c : Criterion) (t : ℚ) (pts : List Point) :
    ∀ q ∈ removePointsF c t pts, q.selected = false := by
  intro q hq
  simp only [removePointsF] at hq
  rcases List.mem_map.mp hq with ⟨p, _, rfl⟩
  split <;> rfl

/-- Pointwise invalidity-preservation lifts to `Forall₂` over a map. -/
lemma forall₂_valid_map (pts : List Point) (f : Point → Point)
    (hf : ∀ p, p.valid = false → (f p).valid = false) :
    List.Forall₂ (fun p q => p.valid = false → q.valid = false) pts
      (pts.map f) := by
  induction pts with
  | nil => exact List.Forall₂.nil
  | cons p l ih => exact List.Forall₂.cons (hf p) ih

/-- C5: with `max_removed = 0` (the Python default), `remove_by_criteria`
uses the threshold verbatim in a single pass — the result is
`removePointsF` at the given threshold for every amount of fuel, even 0,
so no threshold search runs — and it removes exactly the points whose
criterion score exceeds the threshold, leaving every survivor
unselected. -/
theorem remove_by_criteria_uncapped (c : Criterion) (fuel : Nat)
    (pts : List Point) (t step : ℚ) :
    remove_by_criteria c fuel pts t step 0 =
      Except.ok (some (removePointsF c t pts)) ∧
    List.Forall₂ (fun p q =>
      q.valid = (p.valid && !decide (t < criterionScore c p)) ∧
      q.selected = false) pts (removePointsF c t pts) := by
  constructor
  · rw [remove_by_criteria, if_neg (lt_irrefl 0)]
  · induction pts with
    | nil => exact List.Forall₂.nil
    | cons p l ih =>
      simp only [removePointsF, List.map_cons]
      refine List.Forall₂.cons ?_ ih
      cases hv : p.valid <;> by_cases hs : t < criterionScore c p <;>
        simp [hv, hs]

/-- C8: whenever `remove_by_criteria` completes with a result, removed
points are excluded for good (a point invalid before stays invalid — and
the capped path only ever re-selects, never revalidates) and every
remaining point's selection state is reset to unselected. -/
theorem remove_by_criteria_post (c : Criterion) (fuel : Nat) (pts : List Point)
    (t step maxR : ℚ) (out : List Point)
    (h : remove_by_criteria c fuel pts t step maxR = Except.ok (some out)) :
    (∀ q ∈ out, q.selected = false) ∧
    List.Forall₂ (fun p q => p.valid = false → q.valid = false) pts out := by
  by_cases hm : 0 < maxR
  · rw [remove_by_criteria, if_pos hm] at h
    cases hr : threshold_for_percent c fuel pts t step maxR with
    | error e => rw [hr] at h; exact absurd h (by simp)
    | ok o =>
      cases o with
      | none => rw [hr] at h; exact absurd h (by simp)
      | some v =>
        obtain ⟨tf, pts'⟩ := v
        rw [hr] at h
        simp only [Except.ok.injEq, Option.some.injEq] at h
        subst h
        obtain ⟨hstate, -⟩ :=
          threshold_for_percent_some c fuel pts t step maxR tf pts' hr
        subst hstate
        constructor
        · exact removePointsF_selected c tf _
        · rw [removePointsF, selectPoints, List.map_map]
          apply forall₂_valid_map
          intro p hp
          simp [Function.comp, hp]
  · rw [remove_by_criteria, if_neg hm] at h
    simp only [Except.ok.injEq, Option.some.injEq] at h
    subst h
    constructor
    · exact removePointsF_selected c t pts
    · rw [removePointsF]
      apply forall₂_valid_map
      intro p hp
      simp [hp]

/-- Witness for C8 on a two-point cloud: the valid point above threshold is
removed, the already-invalid point stays invalid, and all survivors end up
unselected. -/
theorem remove_by_criteria_post_witness :
    remove_by_criteria Criterion.reconstructionUncertainty 0
        [⟨true, true, 5, 5, 5⟩, ⟨false, false, 1, 1, 1⟩] 1 0 0 =
      Except.ok (some [⟨false, false, 5, 5, 5⟩, ⟨false, false, 1, 1, 1⟩]) ∧
    ((∀ q ∈ ([⟨false, false, 5, 5, 5⟩, ⟨false, false, 1, 1, 1⟩] : List Point),
        q.selected = false) ∧
      List.Forall₂ (fun (p q : Point) => p.valid = false → q.valid = false)
        ([⟨true, true, 5, 5, 5⟩, ⟨false, false, 1, 1, 1⟩] : List Point)
        ([⟨false, false, 5, 5, 5⟩, ⟨false, false, 1, 1, 1⟩] : List Point)) :=
  ⟨by rfl,
    remove_by_criteria_post Criterion.reconstructionUncertainty 0
      [⟨true, true, 5, 5, 5⟩, ⟨false, false, 1, 1, 1⟩] 1 0 0
      [⟨false, false, 5, 5, 5⟩, ⟨false, false, 1, 1, 1⟩] (by rfl)⟩

/-- C4: every run of `filter_sparse_cloud` of image_processor.py fails with
`AttributeError` while evaluating `Filter.RECONSTRUCTION_UNCERTAINTY_STEP`
— filter.py defines no such attribute — before the first removal stage, so
no removal stage and no camera-optimization call ever happens (the claimed
3 optimizations in stage order are the evident intent of the code, which
this slip prevents). -/
theorem filter_sparse_cloud_missing_step_attribute (fuel : Nat)
    (pts : List Point) :
    filter_sparse_cloud fuel pts = Except.error PyError.attributeError := rfl

/-! ## Claims about the scale calibrators -/

/-- C6 (amended, CSV calibrator): `add_scalebars` registers a scale bar —
with the profile's scale-bar accuracy and the record's distance — for
exactly the records both of whose endpoint labels resolve to detected
markers, and emits one diagnostic naming the missing pair for exactly the
other records; it never partially registers. -/
theorem add_scalebars_spec (records : List ScaleRecord) (labels : List String) :
    registeredScalebars (add_scalebars records labels) =
      (records.filter fun r =>
        decide (MARKER_STRING r.id1 ∈ labels) &&
          decide (MARKER_STRING r.id2 ∈ labels)).map
        (fun r => ⟨MARKER_STRING r.id1, MARKER_STRING r.id2, SCALEBAR,
          r.distance⟩) ∧
    missingDiagnostics (add_scalebars records labels) =
      (records.filter fun r =>
        !(decide (MARKER_STRING r.id1 ∈ labels) &&
          decide (MARKER_STRING r.id2 ∈ labels))).map
        (fun r => (MARKER_STRING r.id1, MARKER_STRING r.id2)) := by
  induction records with
  | nil => exact ⟨rfl, rfl⟩
  | cons r rs ih =>
    obtain ⟨ih1, ih2⟩ := ih
    by_cases h1 : MARKER_STRING r.id1 ∈ labels <;>
      by_cases h2 : MARKER_STRING r.id2 ∈ labels <;>
        refine ⟨?_, ?_⟩ <;>
          simp_all [add_scalebars, add_scalebars_events, registeredScalebars,
            missingDiagnostics, List.filterMap_append, List.filter_cons]

/-- C6 counterexample (legacy calibrator): with markers 1, 2, 3 detected,
the fixed pairs (3,4) and (5,6) each have a missing endpoint, yet the
legacy `add_scalebars` of process-images.py emits no diagnostic at all —
the records are skipped silently. -/
theorem add_scalebars_legacy_silent_skip :
    add_scalebars_legacy ["target 1", "target 2", "target 3"] (7 / 20) =
      [ScaleEvent.addScalebar "target 1" "target 2" (3 / 100) (7 / 20)] ∧
    missingDiagnostics
        (add_scalebars_legacy ["target 1", "target 2", "target 3"] (7 / 20)) =
      [] := by
  constructor <;> rfl

/-- C9 (amended, CSV calibrator): `add_scalebars` triggers exactly one
global transform recompute, and it comes after all record-processing
events (the record loop itself never updates the transform). -/
theorem add_scalebars_transform_last (records : List ScaleRecord)
    (labels : List String) :
    add_scalebars records labels =
      add_scalebars_events records labels ++
        [ScaleEvent.updateTransform, ScaleEvent.save] ∧
    ScaleEvent.updateTransform ∉ add_scalebars_events records labels ∧
    (add_scalebars records labels).countP
      (fun e => decide (e = ScaleEvent.updateTransform)) = 1 := by
  have hmem : ScaleEvent.updateTransform ∉ add_scalebars_events records labels := by
    induction records with
    | nil => simp [add_scalebars_events]
    | cons r rs ih =>
      simp only [add_scalebars_events]
      intro hin
      rcases List.mem_append.mp hin with h | h
      · by_cases h1 : MARKER_STRING r.id1 ∈ labels ∧ MARKER_STRING r.id2 ∈ labels
        · rw [if_pos h1] at h; simp at h
        · rw [if_neg h1] at h; simp at h
      · exact ih h
  refine ⟨rfl, hmem, ?_⟩
  have h0 : (add_scalebars_events records labels).countP
      (fun e => decide (e = ScaleEvent.updateTransform)) = 0 := by
    apply List.countP_eq_zero.mpr
    intro a ha
    simp only [decide_eq_true_eq]
    intro hEq
    exact hmem (hEq ▸ ha)
  simp [add_scalebars, List.countP_append, h0, List.countP_cons]

/-- C9 counterexample (legacy calibrator): the legacy `add_scalebars`
processes its records (it registers the pair (1,2)) but never triggers a
transform recompute. -/
theorem add_scalebars_legacy_no_transform :
    add_scalebars_legacy ["target 1", "target 2"] (7 / 20) =
      [ScaleEvent.addScalebar "target 1" "target 2" (3 / 100) (7 / 20)] ∧
    (add_scalebars_legacy ["target 1", "target 2"] (7 / 20)).countP
      (fun e => decide (e = ScaleEvent.updateTransform)) = 0 := by
  constructor <;> rfl

/-! ## Claims about the dense-cloud confidence filter -/

/-- C3 (amended): the dense confidence-filter step removes exactly the
points whose confidence is at most `DEPTH_MAP_MINIMUM` (the filter range
`[0, minimum]` is inclusive, per the engine API and the code's own
"remove points with one depth map" comment), and the confidence filter is
reset afterward so it does not persist on the point set. -/
theorem filter_dense_cloud_confidence_spec (s : PointCloudState)
    (h : ∀ p ∈ s.points, p.cls < 128) :
    (filter_dense_cloud_confidence s).confFilter = none ∧
    (filter_dense_cloud_confidence s).points =
      s.points.map fun p =>
        if p.confidence ≤ DEPTH_MAP_MINIMUM then { p with removed := true }
        else p := by
  constructor
  · rfl
  · show (removePointsDense ALL_VISIBLE_POINTS
        (setConfidenceFilter 0 DEPTH_MAP_MINIMUM s)).points = _
    simp only [removePointsDense, setConfidenceFilter]
    apply List.map_congr_left
    intro p hp
    have hcls : p.cls ∈ ALL_VISIBLE_POINTS := by
      simp only [ALL_VISIBLE_POINTS, List.mem_range]
      exact h p hp
    by_cases hconf : p.confidence ≤ DEPTH_MAP_MINIMUM
    · by_cases hrem : p.removed
      · simp [confVisible, hrem, hconf]
        cases p
        simp_all
      · simp [confVisible, hrem, hconf, hcls]
    · simp [confVisible, hconf]

/-- Witness for the amended C3: a single kept point of confidence 2. -/
theorem filter_dense_cloud_confidence_spec_witness :
    (∀ p ∈ (PointCloudState.mk [⟨2, 0, false⟩] none).points, p.cls < 128) ∧
    ((filter_dense_cloud_confidence ⟨[⟨2, 0, false⟩], none⟩).confFilter =
        none ∧
      (filter_dense_cloud_confidence ⟨[⟨2, 0, false⟩], none⟩).points =
        [(⟨2, 0, false⟩ : DensePoint)].map fun p =>
          if p.confidence ≤ DEPTH_MAP_MINIMUM then { p with removed := true }
          else p) :=
  ⟨by decide, filter_dense_cloud_confidence_spec ⟨[⟨2, 0, false⟩], none⟩
    (by decide)⟩

/-- C3 counterexample: on depth-map counts `[0, 1, 2, 3]` with minimum 1,
the code removes the points of confidence 0 AND of confidence 1 (the count
equal to the minimum, not strictly below it): `setConfidenceFilter(0, 1)`
keeps confidence 1 inside the removal range. -/
theorem filter_dense_cloud_removes_minimum_count :
    (filter_dense_cloud_confidence
        ⟨[⟨0, 0, false⟩, ⟨1, 0, false⟩, ⟨2, 0, false⟩, ⟨3, 0, false⟩],
          none⟩).points =
      [⟨0, 0, true⟩, ⟨1, 0, true⟩, ⟨2, 0, false⟩, ⟨3, 0, false⟩] := by
  decide
